import Mathlib

/-!
Verification of the listening-history dashboard core (ingestion, validation,
filtering, aggregation) against its natural-language specification.

The Python source is shallowly embedded: pure functions become Lean
functions, pandas/groupby pipelines become explicit list computations on a
typed record, and Python code that can raise is modelled with
Option/Except.  Rational numbers stand in for Python floats; where a
computation's result depends on binary-float rounding beyond the range a
claim exercises, the embedding is noted at the definition.
-/

namespace Wrapped

/-! ## Data model

A stream event as the analysis pages see it after normalization: the pages
only access the calendar year and the hour of day of the parsed timestamp
(`df['ts'].dt.year`, `df['ts'].dt.hour`), the play duration, the skip flag,
the raw platform string, and the track/artist names.
-/

structure StreamEvent where
  year : Int
  hour : Nat
  ms_played : Nat
  skipped : Bool
  platform : String
  track : String
  artist : String
deriving DecidableEq, Repr

/-! ## Platform classification (pages/page1.py lines 6-12, duplicated in
pages/page4.py lines 8-14 and pages/page5.py lines 8-14)

Python:
  if platform in ['android', 'ios']: return 'Mobile'
  elif platform in ['windows', 'osx', 'linux']: return 'Desktop'
  return 'Web'
-/

def categorize_platform (platform : String) : String :=
  if platform ∈ (["android", "ios"] : List String) then "Mobile"
  else if platform ∈ (["windows", "osx", "linux"] : List String) then "Desktop"
  else "Web"

/-! ## Part-of-day bucketing (pages/page4.py lines 104-109, duplicated in
pages/page5.py lines 174-179)

Python:
  df['part_of_day'] = pd.cut(df['ts'].dt.hour, bins=[0, 6, 12, 18, 24],
      labels=['Night (12AM-6AM)', 'Morning (6AM-12PM)',
              'Afternoon (12PM-6PM)', 'Evening (6PM-12AM)'])

pd.cut with default arguments (right=True, include_lowest=False) buckets a
value x into the right-closed intervals (0,6], (6,12], (12,18], (18,24];
a value on or outside the outer edges (here: hour 0) falls into no bin and
gets NaN, modelled as `none`.
-/

def part_of_day (hour : Nat) : Option String :=
  if 0 < hour ∧ hour ≤ 6 then some "Night (12AM-6AM)"
  else if 6 < hour ∧ hour ≤ 12 then some "Morning (6AM-12PM)"
  else if 12 < hour ∧ hour ≤ 18 then some "Afternoon (12PM-6PM)"
  else if 18 < hour ∧ hour ≤ 24 then some "Evening (6PM-12AM)"
  else none

/-- Modelled from the spec: part-of-day as half-open intervals
[0,6) Night, [6,12) Morning, [12,18) Afternoon, [18,24) Evening,
a total assignment on hours 0..23. -/
def part_of_day_spec (hour : Nat) : Option String :=
  if hour < 6 then some "Night (12AM-6AM)"
  else if hour < 12 then some "Morning (6AM-12PM)"
  else if hour < 18 then some "Afternoon (12PM-6PM)"
  else if hour < 24 then some "Evening (6PM-12AM)"
  else none

/-- C3: platform classification is a total pure function of the raw
platform string: exactly 'android'/'ios' map to Mobile, exactly
'windows'/'osx'/'linux' map to Desktop, and every other string maps to
Web. -/
theorem categorize_platform_total_rule (p : String) :
    ((p = "android" ∨ p = "ios") → categorize_platform p = "Mobile") ∧
    ((p = "windows" ∨ p = "osx" ∨ p = "linux") → categorize_platform p = "Desktop") ∧
    (p ∉ (["android", "ios", "windows", "osx", "linux"] : List String) →
      categorize_platform p = "Web") := by
  refine ⟨?_, ?_, ?_⟩
  · rintro (rfl | rfl) <;> rfl
  · rintro (rfl | rfl | rfl) <;> rfl
  · intro hp
    simp only [List.mem_cons, List.mem_singleton, not_or] at hp
    obtain ⟨h1, h2, h3, h4, h5, -⟩ := hp
    unfold categorize_platform
    simp [h1, h2, h3, h4, h5]

/-- Witness for C3: the rule evaluated at 'android' and at an
unrecognized platform string. -/
theorem categorize_platform_total_rule_witness :
    categorize_platform "android" = "Mobile" ∧
    categorize_platform "weird_kiosk_v2" = "Web" :=
  ⟨(categorize_platform_total_rule "android").1 (Or.inl rfl),
   (categorize_platform_total_rule "weird_kiosk_v2").2.2 (by decide)⟩

/-- C2: contrary to the claim, the pd.cut bucketing is right-closed, so
hour 0 (midnight) receives no bucket at all (NaN, dropped from the
grouping) and hour 6 is bucketed as Night rather than Morning; the
spec's half-open bucketing assigns Night to hour 0 and Morning to
hour 6. -/
theorem part_of_day_hour0_hour6 :
    part_of_day 0 = none ∧
    part_of_day 6 = some "Night (12AM-6AM)" ∧
    part_of_day_spec 0 = some "Night (12AM-6AM)" ∧
    part_of_day_spec 6 = some "Morning (6AM-12PM)" := by
  refine ⟨rfl, ?_, rfl, rfl⟩
  unfold part_of_day
  norm_num

/-! ## Filter pipeline (pages/page1.py lines 65-75)

Python (applied in this order):
  if selected_year != "All Years": df = df[df['ts'].dt.year == selected_year]
  if selected_device != "All Devices": df = df[df['device_type'] == selected_device]
  if not include_skipped: df = df[~df['skipped']]
  df = df[df['ms_played'] >= (min_seconds * 1000)]
where df['device_type'] = df['platform'].apply(categorize_platform).
-/

structure FilterSpec where
  selected_year : Option Int
  selected_device : Option String
  include_skipped : Bool
  min_seconds : Nat
deriving DecidableEq, Repr

/-- The year filter line: `if selected_year != "All Years": df = df[df['ts'].dt.year == selected_year]`. -/
def yearFilter (selected_year : Option Int) (df : List StreamEvent) : List StreamEvent :=
  match selected_year with
  | some y => df.filter (fun r => r.year == y)
  | none => df

/-- The device filter line: `if selected_device != "All Devices": df = df[df['device_type'] == selected_device]`. -/
def deviceFilter (selected_device : Option String) (df : List StreamEvent) : List StreamEvent :=
  match selected_device with
  | some d => df.filter (fun r => categorize_platform r.platform == d)
  | none => df

/-- The skip filter line: `if not include_skipped: df = df[~df['skipped']]`. -/
def skipFilter (include_skipped : Bool) (df : List StreamEvent) : List StreamEvent :=
  if include_skipped then df else df.filter (fun r => !r.skipped)

/-- The duration filter line: `df = df[df['ms_played'] >= (min_seconds * 1000)]`. -/
def minSecondsFilter (min_seconds : Nat) (df : List StreamEvent) : List StreamEvent :=
  df.filter (fun r => min_seconds * 1000 ≤ r.ms_played)

def applyFilters (spec : FilterSpec) (df : List StreamEvent) : List StreamEvent :=
  minSecondsFilter spec.min_seconds
    (skipFilter spec.include_skipped
      (deviceFilter spec.selected_device
        (yearFilter spec.selected_year df)))

/-- One filter specification extends another when it keeps every condition
of the first and may add conditions: the same year constraint (or the first
had none), the same device constraint (or the first had none), excludes
skipped plays whenever the first does, and a minimum-duration threshold at
least as high. -/
def FilterSpec.addsConditionsTo (s' s : FilterSpec) : Prop :=
  (s.selected_year = none ∨ s'.selected_year = s.selected_year) ∧
  (s.selected_device = none ∨ s'.selected_device = s.selected_device) ∧
  (s.include_skipped = false → s'.include_skipped = false) ∧
  s.min_seconds ≤ s'.min_seconds

lemma filter_sublist_of_imp {α : Type} (p q : α → Bool) (l : List α)
    (h : ∀ a, q a = true → p a = true) :
    List.Sublist (l.filter q) (l.filter p) := by
  induction l with
  | nil => simp
  | cons a l ih =>
    by_cases hq : q a = true
    · rw [List.filter_cons_of_pos hq, List.filter_cons_of_pos (h a hq)]
      exact ih.cons₂ a
    · rw [List.filter_cons_of_neg (by simpa using hq)]
      cases hp : p a
      · rw [List.filter_cons_of_neg (by simp [hp])]
        exact ih
      · rw [List.filter_cons_of_pos hp]
        exact ih.cons a

lemma yearFilter_sublist (o' o : Option Int) (df : List StreamEvent)
    (h : o = none ∨ o' = o) :
    List.Sublist (yearFilter o' df) (yearFilter o df) := by
  rcases h with h | h
  · rw [h]
    unfold yearFilter
    cases o' with
    | none => exact List.Sublist.refl df
    | some y => exact List.filter_sublist df
  · rw [h]

lemma deviceFilter_sublist (o' o : Option String) (l' l : List StreamEvent)
    (h : o = none ∨ o' = o) (hl : List.Sublist l' l) :
    List.Sublist (deviceFilter o' l') (deviceFilter o l) := by
  rcases h with h | h
  · rw [h]
    unfold deviceFilter
    cases o' with
    | none => exact hl
    | some d => exact (List.filter_sublist l').trans hl
  · rw [h]
    unfold deviceFilter
    cases o with
    | none => exact hl
    | some d => exact hl.filter _

lemma skipFilter_sublist (b' b : Bool) (l' l : List StreamEvent)
    (h : b = false → b' = false) (hl : List.Sublist l' l) :
    List.Sublist (skipFilter b' l') (skipFilter b l) := by
  unfold skipFilter
  cases b with
  | true =>
    simp only [if_pos rfl]
    cases b'
    · simpa using (List.filter_sublist l').trans hl
    · simpa using hl
  | false =>
    rw [h rfl]
    simpa using hl.filter _

lemma minSecondsFilter_sublist (m' m : Nat) (l' l : List StreamEvent)
    (h : m ≤ m') (hl : List.Sublist l' l) :
    List.Sublist (minSecondsFilter m' l') (minSecondsFilter m l) := by
  unfold minSecondsFilter
  have himp : ∀ r : StreamEvent,
      decide (m' * 1000 ≤ r.ms_played) = true →
      decide (m * 1000 ≤ r.ms_played) = true := by
    intro r hr
    simp only [decide_eq_true_eq] at hr ⊢
    exact le_trans (Nat.mul_le_mul_right 1000 h) hr
  exact (filter_sublist_of_imp _ _ l' himp).trans (hl.filter _)

lemma applyFilters_sublist_of_addsConditionsTo (s s' : FilterSpec)
    (df : List StreamEvent) (h : s'.addsConditionsTo s) :
    List.Sublist (applyFilters s' df) (applyFilters s df) := by
  obtain ⟨hy, hd, hs, hm⟩ := h
  unfold applyFilters
  exact minSecondsFilter_sublist _ _ _ _ hm
    (skipFilter_sublist _ _ _ _ hs
      (deviceFilter_sublist _ _ _ _ hd
        (yearFilter_sublist _ _ df hy)))

/-- C9: the filtered record set is never larger than the unfiltered set,
and extending a filter specification with additional AND-conditions never
increases the size of the filtered result. -/
theorem filter_monotonicity (s s' : FilterSpec) (df : List StreamEvent)
    (h : s'.addsConditionsTo s) :
    (applyFilters s' df).length ≤ (applyFilters s df).length ∧
    (applyFilters s df).length ≤ df.length := by
  constructor
  · exact (applyFilters_sublist_of_addsConditionsTo s s' df h).length_le
  · have hall : s.addsConditionsTo ⟨none, none, true, 0⟩ :=
      ⟨Or.inl rfl, Or.inl rfl, fun hcon => Bool.noConfusion hcon, Nat.zero_le _⟩
    have h0 : applyFilters ⟨none, none, true, 0⟩ df = df := by
      unfold applyFilters minSecondsFilter skipFilter deviceFilter yearFilter
      simp
    calc (applyFilters s df).length
        ≤ (applyFilters ⟨none, none, true, 0⟩ df).length :=
          (applyFilters_sublist_of_addsConditionsTo _ s df hall).length_le
      _ = df.length := by rw [h0]

def sampleDf : List StreamEvent :=
  [⟨2023, 10, 200000, false, "android", "Song A", "Artist A"⟩,
   ⟨2023, 1, 10000, true, "windows", "Song B", "Artist A"⟩,
   ⟨2022, 23, 31000, false, "web player", "Song C", "Artist B"⟩]

/-- Witness for C9: the monotonicity theorem applied to a concrete
dataset, comparing the year-only filter with the same filter extended by a
device condition, skip exclusion and a 30-second minimum. -/
theorem filter_monotonicity_witness :
    (applyFilters ⟨some 2023, some "Mobile", false, 30⟩ sampleDf).length ≤
      (applyFilters ⟨some 2023, none, true, 0⟩ sampleDf).length ∧
    (applyFilters ⟨some 2023, none, true, 0⟩ sampleDf).length ≤ sampleDf.length :=
  filter_monotonicity ⟨some 2023, none, true, 0⟩ ⟨some 2023, some "Mobile", false, 30⟩
    sampleDf ⟨Or.inr rfl, Or.inl rfl, fun _ => rfl, by decide⟩

/-! ## Listening-distribution page (pages/page3.py)

The page filters by optional year and a minimum duration (lines 46-48,
textually the same two lines as in page1), groups by artist or track name
and sums `ms_played` (lines 54-57), converts to hours (line 66), and then
runs the concentration analysis (lines 67-96) on the per-group hours
series.  `sort_values('Hours')` on the grouped frame is modelled by
insertion sort; the sorted sequence of values is unique regardless of the
sorting algorithm's tie behavior, and only the value sequence is consumed
below.
-/

def page3Filter (selected_year : Option Int) (min_seconds : Nat)
    (df : List StreamEvent) : List StreamEvent :=
  minSecondsFilter min_seconds (yearFilter selected_year df)

/-- Per-group total hours: groupby on a key, sum of ms_played, divided by
1000*60*60 (page3.py lines 54-66).  The groupby key order is irrelevant
here because every consumer of this series re-sorts it by hours. -/
def group_hours (key : StreamEvent → String) (df : List StreamEvent) : List ℚ :=
  ((df.map key).dedup).map
    (fun g => ((df.filter (fun r => key r == g)).map
      (fun r => (r.ms_played : ℚ))).sum / (1000 * 60 * 60))

def insertAsc (x : ℚ) : List ℚ → List ℚ
  | [] => [x]
  | y :: ys => if x ≤ y then x :: y :: ys else y :: insertAsc x ys

/-- Ascending sort of the hours series (`sort_values('Hours', ascending=True)`). -/
def sortAsc : List ℚ → List ℚ
  | [] => []
  | x :: xs => insertAsc x (sortAsc xs)

def insertDesc (x : ℚ) : List ℚ → List ℚ
  | [] => [x]
  | y :: ys => if y ≤ x then x :: y :: ys else y :: insertDesc x ys

/-- Descending sort of the hours series; `nlargest(k, 'Hours')` is the
k-element head of this. -/
def sortDesc : List ℚ → List ℚ
  | [] => []
  | x :: xs => insertDesc x (sortDesc xs)

/-- Running cumulative sums (`cumsum()`). -/
def cumsum : List ℚ → List ℚ
  | [] => []
  | x :: xs => x :: (cumsum xs).map (fun c => x + c)

/-- page3.py line 75:
`items_80_percent = len(grouped_df[grouped_df['Cumulative Percentage'] <= 80])`
where the frame was sorted ASCENDING by hours (line 68) and
Cumulative Percentage = cumulative hours / total hours * 100 (lines 69-71). -/
def items_80_percent (hours : List ℚ) : ℕ :=
  let total := hours.sum
  ((cumsum (sortAsc hours)).filter (fun c => c / total * 100 ≤ 80)).length

/-- Modelled from the spec: the concentration boundary count — the
minimal number of groups, taken from the highest-hours end, whose summed
hours first reaches or exceeds 80% of the grand total. -/
def concentration_count_spec (hours : List ℚ) : ℕ :=
  ((cumsum (sortDesc hours)).takeWhile (fun c => c * 100 < hours.sum * 80)).length + 1

/-- page3.py line 76: `top_20_percent_count = int(total_items * 0.2)`.
Python truncates the double `total_items * 0.2` toward zero; that equals
`total_items * 2 / 10` in integer arithmetic throughout the range
exercised here (in particular for every `total_items < 5`, where the
double lies strictly between 0 and 1). -/
def top_20_percent_count (total_items : Nat) : Nat :=
  total_items * 2 / 10

/-- page3.py line 89: `grouped_df.nlargest(top_20_percent_count, 'Hours')['Hours'].sum()`. -/
def top_20_hours (hours : List ℚ) : ℚ :=
  ((sortDesc hours).take (top_20_percent_count hours.length)).sum

/-- page3.py line 90: `rest_hours = total_hours - top_20_hours`. -/
def rest_hours (hours : List ℚ) : ℚ :=
  hours.sum - top_20_hours hours

/-- Python integer/float division, which raises ZeroDivisionError on a
zero divisor; the raise is modelled as `none`. -/
def pyDiv (a b : ℚ) : Option ℚ :=
  if b = 0 then none else some (a / b)

structure ConcentrationStats where
  total_items : Nat
  items80 : Nat
  library_share : ℚ
  top20_count : Nat
  top20_hours : ℚ
  remainder_hours : ℚ
  avg_hours_per_item : ℚ
deriving Repr

/-- The numbers page3.py derives from the grouped hours series (lines
74-96 and 147-160).  The page divides by `total_items` twice in plain
Python (`items_80_percent/total_items*100` on line 82 and
`total_hours/total_items` on line 151); with an empty grouped frame those
divisions raise ZeroDivisionError, modelled by `pyDiv` returning `none`. -/
def concentration_summary (hours : List ℚ) : Option ConcentrationStats := do
  let total_hours := hours.sum
  let total_items := hours.length
  let i80 := items_80_percent hours
  let share ← pyDiv (i80 : ℚ) (total_items : ℚ)
  let t20c := top_20_percent_count total_items
  let t20h := top_20_hours hours
  let avg ← pyDiv total_hours (total_items : ℚ)
  pure ⟨total_items, i80, share * 100, t20c, t20h, total_hours - t20h, avg⟩

/-- C1: on the ten group-hour values [50,10,10,5,5,5,5,3,3,3] the code's
reported boundary count is 9, not the 5 the claim requires: line 75 counts
cumulative percentages from the LOWEST-hours end of the ascending-sorted
series, while the claimed (and intended) boundary count — the minimal
top-ranked subset reaching 80% of the 99 total hours — is 5. -/
theorem items_80_percent_example :
    items_80_percent [50, 10, 10, 5, 5, 5, 5, 3, 3, 3] = 9 ∧
    concentration_count_spec [50, 10, 10, 5, 5, 5, 5, 3, 3, 3] = 5 := by
  constructor
  · norm_num [items_80_percent, sortAsc, insertAsc, cumsum]
  · norm_num [concentration_count_spec, sortDesc, insertDesc, cumsum]

/-- C10: with between one and four groups the top-20% boundary count
truncates to 0, so the 'Top 20%' subset is empty, its aggregate hours is
0, and the reported remainder equals the grand total. -/
theorem top20_zero_when_under_five_groups (hours : List ℚ)
    (h1 : 1 ≤ hours.length) (h2 : hours.length < 5) :
    top_20_percent_count hours.length = 0 ∧
    top_20_hours hours = 0 ∧
    rest_hours hours = hours.sum := by
  have hc : top_20_percent_count hours.length = 0 := by
    unfold top_20_percent_count
    omega
  have ht : top_20_hours hours = 0 := by
    unfold top_20_hours
    rw [hc]
    simp
  refine ⟨hc, ht, ?_⟩
  unfold rest_hours
  rw [ht]
  ring

/-- Witness for C10: three groups of 2, 7 and 1 hours. -/
theorem top20_zero_when_under_five_groups_witness :
    top_20_percent_count ([2, 7, 1] : List ℚ).length = 0 ∧
    top_20_hours [2, 7, 1] = 0 ∧
    rest_hours [2, 7, 1] = ([2, 7, 1] : List ℚ).sum :=
  top20_zero_when_under_five_groups [2, 7, 1] (by norm_num) (by norm_num)

def singleShortPlay : List StreamEvent :=
  [⟨2023, 10, 1000, false, "android", "Song A", "Artist A"⟩]

/-- Counterexample for C6: a dataset whose filtered record set is empty
(one 1-second play against the page's default 30-second minimum) on which
the concentration aggregation does NOT return a well-defined result: it
divides the boundary count by the zero group count and raises
ZeroDivisionError (modelled as `none`). -/
theorem concentration_summary_empty_raises :
    page3Filter none 30 singleShortPlay = [] ∧
    concentration_summary
      (group_hours (fun r => r.artist) (page3Filter none 30 singleShortPlay)) = none := by
  have hf : page3Filter none 30 singleShortPlay = [] := by
    norm_num [page3Filter, minSecondsFilter, yearFilter, singleShortPlay]
  refine ⟨hf, ?_⟩
  rw [hf]
  norm_num [concentration_summary, group_hours, pyDiv, items_80_percent,
    sortAsc, cumsum, top_20_percent_count, top_20_hours, sortDesc, rest_hours,
    Option.bind]

/-- C6 (amended): aggregating an empty filtered record set is not
raise-free — whenever the page3 filter leaves no records, the
concentration summary divides by the zero group count and errors
(surfaced by the page's broad exception handler), instead of returning a
zero-valued result structure. -/
theorem concentration_summary_none_of_empty_filter (key : StreamEvent → String)
    (selected_year : Option Int) (min_seconds : Nat) (df : List StreamEvent)
    (h : page3Filter selected_year min_seconds df = []) :
    concentration_summary (group_hours key (page3Filter selected_year min_seconds df)) = none := by
  rw [h]
  norm_num [concentration_summary, group_hours, pyDiv, items_80_percent,
    sortAsc, cumsum, Option.bind]

/-- Witness for the amended C6: the empty-filter hypothesis discharged on
a concrete one-record dataset under the default 30-second minimum. -/
theorem concentration_summary_none_of_empty_filter_witness :
    concentration_summary
      (group_hours (fun r => r.track) (page3Filter (some 2023) 30 singleShortPlay)) = none :=
  concentration_summary_none_of_empty_filter (fun r => r.track) (some 2023) 30
    singleShortPlay
    (by norm_num [page3Filter, minSecondsFilter, yearFilter, singleShortPlay])

/-! ## Year-over-year change (pages/page4.py lines 123-138)

Python:
  yearly_hours = df.groupby('year').agg({'ms_played': lambda x: sum(x)/(1000*60*60), ...})
  if len(yearly_hours) > 1:
      latest_year = yearly_hours.iloc[-1]
      previous_year = yearly_hours.iloc[-2]
      yoy_change = ((latest_year['Hours'] - previous_year['Hours'])
                    / previous_year['Hours'] * 100)

groupby('year') sorts the group keys ascending, so iloc[-1] and iloc[-2]
are the rows of the two largest calendar years present — whatever those
years are; there is no adjacency check and no zero-divisor guard (a zero
previous-year total flows into the float division).
-/

def insertAscInt (x : Int) : List Int → List Int
  | [] => [x]
  | y :: ys => if x ≤ y then x :: y :: ys else y :: insertAscInt x ys

def sortAscInt : List Int → List Int
  | [] => []
  | x :: xs => insertAscInt x (sortAscInt xs)

/-- groupby('year'): one row per distinct year, keys ascending, hours
summed from ms_played. -/
def yearly_hours (df : List StreamEvent) : List (Int × ℚ) :=
  (sortAscInt (df.map (fun r => r.year)).dedup).map
    (fun y => (y, ((df.filter (fun r => r.year == y)).map
      (fun r => (r.ms_played : ℚ))).sum / (1000 * 60 * 60)))

def yoy_change (df : List StreamEvent) : Option ℚ :=
  match (yearly_hours df).reverse with
  | latest :: previous :: _ => some ((latest.2 - previous.2) / previous.2 * 100)
  | _ => none

/-- Modelled from the spec: the year-over-year change between two ADJACENT
calendar years present in the data, selected by calendar year value, and
guarded against a zero previous-year total. -/
def yoy_change_spec (df : List StreamEvent) : Option ℚ :=
  match (yearly_hours df).reverse with
  | (ly, lh) :: (py, ph) :: _ =>
      if py + 1 = ly ∧ ph ≠ 0 then some ((lh - ph) / ph * 100) else none
  | _ => none

def gapYearsDf : List StreamEvent :=
  [⟨2020, 12, 360000000, false, "android", "Song A", "Artist A"⟩,
   ⟨2023, 12, 540000000, false, "ios", "Song A", "Artist A"⟩]

/-- Counterexample for C5: with 100 hours in 2020 and 150 hours in 2023 —
years that are NOT adjacent — the code still reports +50%, because it
selects the last two rows of the year-sorted grouping by position; the
claim's by-value adjacent-year selection yields no comparison here. -/
theorem yoy_change_gap_years :
    yoy_change gapYearsDf = some 50 ∧ yoy_change_spec gapYearsDf = none := by
  constructor
  · norm_num [yoy_change, yearly_hours, gapYearsDf, sortAscInt, insertAscInt,
      List.dedup_cons_of_not_mem, List.dedup_nil]
  · norm_num [yoy_change_spec, yearly_hours, gapYearsDf, sortAscInt, insertAscInt,
      List.dedup_cons_of_not_mem, List.dedup_nil]

/-- C5 (amended): whenever at least two distinct years are present, the
change is computed between the two largest calendar years present
(positions -1 and -2 of the ascending-year grouping, adjacent or not),
as (latest_hours − previous_hours) / previous_hours × 100, with no guard
on a zero previous-year total. -/
theorem yoy_change_code_rule (df : List StreamEvent)
    (latest previous : Int × ℚ) (rest : List (Int × ℚ))
    (h : (yearly_hours df).reverse = latest :: previous :: rest) :
    yoy_change df = some ((latest.2 - previous.2) / previous.2 * 100) := by
  unfold yoy_change
  rw [h]

def adjacentYearsDf : List StreamEvent :=
  [⟨2022, 12, 360000000, false, "android", "Song A", "Artist A"⟩,
   ⟨2023, 12, 540000000, false, "ios", "Song A", "Artist A"⟩]

/-- Witness for the amended C5: 100 hours in 2022 and 150 hours in 2023
give a reported change of +50%. -/
theorem yoy_change_code_rule_witness :
    yoy_change adjacentYearsDf = some 50 := by
  have h := yoy_change_code_rule adjacentYearsDf (2023, 150) (2022, 100) []
    (by norm_num [yearly_hours, adjacentYearsDf, sortAscInt, insertAscInt,
      List.dedup_cons_of_not_mem, List.dedup_nil])
  rw [h]
  norm_num

/-! ## Ingestion and validation (utils/file_validator.py, process_spotify_zip)

The zip and JSON libraries are external; their observable behavior at the
call sites is embedded as data:
  * an upload is `none` when `zipfile.ZipFile` raises BadZipFile on its
    bytes, otherwise `some` of the archive's entry list in native order;
  * an entry's `content` is `Except.error ()` when `json.load` raises
    JSONDecodeError on it, otherwise `Except.ok` of its record list;
  * a raw record is the key/value list of one JSON object.
The final `pd.to_datetime` / `sort_values` normalization step is not
modelled (none of the settled claims depends on it); `df` carries the
merged record list.  The function's catch-all `except Exception` (which
would also absorb a timestamp-parse failure there) corresponds to the
model being a total function into `IngestResult`.
-/

inductive JsonVal
  | str (s : String)
  | num (n : Int)
  | boolean (b : Bool)
  | null
deriving DecidableEq, Repr

abbrev RawRecord := List (String × JsonVal)

structure ZipEntry where
  name : String
  content : Except Unit (List RawRecord)
deriving Repr

abbrev ZipBytes := Option (List ZipEntry)

/-- Character-sequence test used to embed Python's substring operators:
does the haystack start with the needle? -/
def leadsWith : List Char → List Char → Bool
  | [], _ => true
  | _ :: _, [] => false
  | c :: cs, d :: ds => c == d && leadsWith cs ds

/-- Python's `needle in haystack` on strings, over character lists. -/
def containsSeq (needle : List Char) : List Char → Bool
  | [] => leadsWith needle []
  | d :: ds => leadsWith needle (d :: ds) || containsSeq needle ds

/-- Python's `haystack.endswith(needle)`, over character lists. -/
def endsWithSeq (needle hay : List Char) : Bool :=
  leadsWith needle.reverse hay.reverse

/-- The audio-history entry test (file_validator.py line 29):
`'_Audio_' in f and f.endswith('.json')`. -/
def isAudioEntry (name : String) : Bool :=
  containsSeq "_Audio_".toList name.toList && endsWithSeq ".json".toList name.toList

/-- The extraction loop (lines 38-41): parse each matching entry and
concatenate, failing fast on the first JSONDecodeError. -/
def loadAll : List ZipEntry → Except Unit (List RawRecord)
  | [] => Except.ok []
  | e :: es => do
    let recs ← e.content
    let rest ← loadAll es
    pure (recs ++ rest)

def required_columns : List String :=
  ["ts", "master_metadata_track_name",
   "master_metadata_album_artist_name", "ms_played"]

/-- Column presence in `pd.DataFrame(all_streams)`: a column exists when
some record carries the key. -/
def hasColumn (records : List RawRecord) (col : String) : Bool :=
  records.any (fun r => r.any (fun kv => kv.1 == col))

/-- Line 58: `[col for col in required_columns if col not in df.columns]`. -/
def missing_columns (records : List RawRecord) : List String :=
  required_columns.filter (fun col => !(hasColumn records col))

structure IngestResult where
  is_valid : Bool
  error : Option String
  df : Option (List RawRecord)
deriving Repr

/-- file_validator.py lines 20-90.  The Python locals `audio_files` and
`missing_columns` are inlined at their use sites. -/
def process_spotify_zip (uploaded_zip : ZipBytes) : IngestResult :=
  match uploaded_zip with
  | none => ⟨false, some "Invalid zip file format", none⟩
  | some entries =>
    if (entries.filter (fun f => isAudioEntry f.name)).isEmpty then
      ⟨false, some "No audio streaming history files found in zip", none⟩
    else
      match loadAll (entries.filter (fun f => isAudioEntry f.name)) with
      | Except.error _ =>
        ⟨false, some "Invalid JSON format in streaming history files", none⟩
      | Except.ok all_streams =>
        if all_streams.isEmpty then
          ⟨false, some "No streaming data found in files", none⟩
        else if (missing_columns all_streams).isEmpty then
          ⟨true, none, some all_streams⟩
        else
          ⟨false, some ("Missing required columns: " ++
            String.intercalate ", " (missing_columns all_streams)), none⟩

lemma process_noMatch_eq (entries : List ZipEntry)
    (h : (entries.filter (fun f => isAudioEntry f.name)) = []) :
    process_spotify_zip (some entries) =
      ⟨false, some "No audio streaming history files found in zip", none⟩ := by
  simp [process_spotify_zip, h]

lemma process_jsonError_eq (entries : List ZipEntry) (e : Unit)
    (hne : (entries.filter (fun f => isAudioEntry f.name)) ≠ [])
    (h : loadAll (entries.filter (fun f => isAudioEntry f.name)) = Except.error e) :
    process_spotify_zip (some entries) =
      ⟨false, some "Invalid JSON format in streaming history files", none⟩ := by
  simp only [process_spotify_zip]
  rw [if_neg (by simpa using hne), h]

lemma process_ok_eq (entries : List ZipEntry) (recs : List RawRecord)
    (hne : (entries.filter (fun f => isAudioEntry f.name)) ≠ [])
    (hload : loadAll (entries.filter (fun f => isAudioEntry f.name)) = Except.ok recs) :
    process_spotify_zip (some entries) =
      (if recs.isEmpty then
        ⟨false, some "No streaming data found in files", none⟩
      else if (missing_columns recs).isEmpty then
        ⟨true, none, some recs⟩
      else
        ⟨false, some ("Missing required columns: " ++
          String.intercalate ", " (missing_columns recs)), none⟩ : IngestResult) := by
  simp only [process_spotify_zip]
  rw [if_neg (by simpa using hne), hload]

/-- C7: ingestion always returns a result record and classifies its
failures: invalid zip bytes, no matching audio-history entry, a matching
entry that is not valid JSON (with no partial dataset), and zero total
parsed records each produce is_valid false with their error string; and
is_valid true, carrying the merged dataset, occurs only when none of
those failures happened. -/
theorem process_spotify_zip_classification (uploaded_zip : ZipBytes) :
    (uploaded_zip = none →
      process_spotify_zip uploaded_zip =
        ⟨false, some "Invalid zip file format", none⟩) ∧
    (∀ entries, uploaded_zip = some entries →
      ((entries.filter (fun f => isAudioEntry f.name)) = [] →
        process_spotify_zip uploaded_zip =
          ⟨false, some "No audio streaming history files found in zip", none⟩) ∧
      (∀ e, loadAll (entries.filter (fun f => isAudioEntry f.name)) = Except.error e →
        (entries.filter (fun f => isAudioEntry f.name)) ≠ [] →
        process_spotify_zip uploaded_zip =
          ⟨false, some "Invalid JSON format in streaming history files", none⟩) ∧
      (loadAll (entries.filter (fun f => isAudioEntry f.name)) = Except.ok [] →
        (entries.filter (fun f => isAudioEntry f.name)) ≠ [] →
        process_spotify_zip uploaded_zip =
          ⟨false, some "No streaming data found in files", none⟩)) ∧
    ((process_spotify_zip uploaded_zip).is_valid = true →
      ∃ entries recs, uploaded_zip = some entries ∧
        (entries.filter (fun f => isAudioEntry f.name)) ≠ [] ∧
        loadAll (entries.filter (fun f => isAudioEntry f.name)) = Except.ok recs ∧
        recs ≠ [] ∧
        (process_spotify_zip uploaded_zip).df = some recs) := by
  refine ⟨?_, ?_, ?_⟩
  · rintro rfl
    rfl
  · rintro entries rfl
    refine ⟨?_, ?_, ?_⟩
    · intro hempty
      exact process_noMatch_eq entries hempty
    · intro e herr hne
      exact process_jsonError_eq entries e hne herr
    · intro hok hne
      rw [process_ok_eq entries [] hne hok]
      rfl
  · intro hvalid
    cases uploaded_zip with
    | none => simp [process_spotify_zip] at hvalid
    | some entries =>
      by_cases hne : (entries.filter (fun f => isAudioEntry f.name)) = []
      · rw [process_noMatch_eq entries hne] at hvalid
        simp at hvalid
      · cases hload : loadAll (entries.filter (fun f => isAudioEntry f.name)) with
        | error e =>
          rw [process_jsonError_eq entries e hne hload] at hvalid
          simp at hvalid
        | ok recs =>
          have hp := process_ok_eq entries recs hne hload
          rw [hp] at hvalid
          by_cases hes : recs.isEmpty
          · rw [if_pos hes] at hvalid
            simp at hvalid
          · rw [if_neg hes] at hvalid
            by_cases hmiss : (missing_columns recs).isEmpty
            · rw [if_pos hmiss] at hvalid
              refine ⟨entries, recs, rfl, hne, hload, by simpa using hes, ?_⟩
              rw [hp, if_neg hes, if_pos hmiss]
            · rw [if_neg hmiss] at hvalid
              simp at hvalid

/-- Witness for C7: the classification evaluated on bytes that are not a
valid zip archive. -/
theorem process_spotify_zip_classification_witness :
    process_spotify_zip none = ⟨false, some "Invalid zip file format", none⟩ :=
  (process_spotify_zip_classification none).1 rfl

/-- C8: once a nonempty merged record set is reached, ingestion fails
with the missing-columns error if and only if some required column is
absent, and the enumerated names are exactly the absent required
columns. -/
theorem missing_fields_validation (entries : List ZipEntry) (recs : List RawRecord)
    (h1 : (entries.filter (fun f => isAudioEntry f.name)) ≠ [])
    (h2 : loadAll (entries.filter (fun f => isAudioEntry f.name)) = Except.ok recs)
    (h3 : recs ≠ []) :
    (((process_spotify_zip (some entries)).is_valid = false ∧
      (process_spotify_zip (some entries)).error =
        some ("Missing required columns: " ++
          String.intercalate ", " (missing_columns recs)))
      ↔ missing_columns recs ≠ []) ∧
    (∀ c, c ∈ missing_columns recs ↔
      c ∈ required_columns ∧ hasColumn recs c = false) := by
  have hproc : process_spotify_zip (some entries) =
      (if (missing_columns recs).isEmpty then ⟨true, none, some recs⟩
        else ⟨false, some ("Missing required columns: " ++
          String.intercalate ", " (missing_columns recs)), none⟩ : IngestResult) := by
    rw [process_ok_eq entries recs h1 h2, if_neg (by simpa using h3)]
  constructor
  · constructor
    · rintro ⟨hfalse, -⟩
      intro hcon
      rw [hproc, if_pos (by simpa using hcon)] at hfalse
      simp at hfalse
    · intro hmiss
      rw [hproc, if_neg (by simpa using hmiss)]
      exact ⟨rfl, rfl⟩
  · intro c
    simp [missing_columns, List.mem_filter]

def recMissingMs : RawRecord :=
  [("ts", JsonVal.str "2023-01-01T00:00:00Z"),
   ("master_metadata_track_name", JsonVal.str "Song A"),
   ("master_metadata_album_artist_name", JsonVal.str "Artist A")]

def entryMissingMs : ZipEntry :=
  ⟨"Streaming_History_Audio_2023.json", Except.ok [recMissingMs]⟩

/-- Witness for C8: a record set missing only the ms_played column is
rejected with an error naming exactly ms_played. -/
theorem missing_fields_validation_witness :
    (process_spotify_zip (some [entryMissingMs])).is_valid = false ∧
    (process_spotify_zip (some [entryMissingMs])).error =
      some "Missing required columns: ms_played" := by
  have hfil : List.filter (fun f => isAudioEntry f.name) [entryMissingMs] =
      [entryMissingMs] := rfl
  have h := (missing_fields_validation [entryMissingMs] [recMissingMs]
    (by rw [hfil]; exact List.cons_ne_nil _ _)
    (by rw [hfil]; rfl)
    (List.cons_ne_nil _ _)).1.mpr (by decide)
  have hmiss : missing_columns [recMissingMs] = ["ms_played"] := by decide
  rw [hmiss] at h
  exact h

end Wrapped
